import Mathlib

/-
Verification development for the PubHTML5 book downloader
(src/pubfile_content_extractor.py).

The program is embedded shallowly: browser, image and filesystem effects
are abstracted into environment records whose fields give the outcome of
each external interaction (did a click raise, did a capture produce an
image file, ...), while the program's own control flow, arithmetic and
progress-store writes are translated faithfully from the Python source.
-/

namespace PubFile

/-- Progress snapshot stored in the global `download_progress` dictionary.
The Python dictionaries carry keys `current_page`, `total_pages`, `status`,
`completed`, `error` and (on the success write only) `file_path`; the two
optional fields are `Option` here, `none` meaning the key is absent or
`None`. -/
structure Snapshot where
  current_page : Nat
  total_pages : Option Nat
  status : String
  completed : Bool
  error : Bool
  file_path : Option String
deriving DecidableEq

/-- The global `download_progress` dictionary: session id to snapshot. -/
abbrev ProgressStore := String → Option Snapshot

/-- The initial, empty `download_progress` dictionary. -/
def emptyStore : ProgressStore := fun _ => none

/-- `download_progress[sid] = snap`. -/
def setStore (store : ProgressStore) (sid : String) (snap : Snapshot) : ProgressStore :=
  fun s => if s = sid then some snap else store s

/-- The four kinds of writes the program performs on `download_progress`:
`BrowserExtractor.update_progress` (lines 67-76), `PdfGenerator.update_progress`
(lines 425-429, status-only, only when the key exists), the success write in
`PubHTML5Downloader.download` (lines 526-533) and the failure writes there
(lines 511-517 and 538-544). -/
inductive ProgressWrite where
  | extractorUpdate (sid : String) (current : Nat) (total : Option Nat) (status : String)
  | pdfStatus (sid : String) (status : String)
  | jobSuccess (sid : String) (pageCount : Nat) (path : String)
  | jobFailure (sid : String) (status : String)
deriving DecidableEq

/-- Apply one write to the store, exactly as the corresponding Python
assignment does. `extractorUpdate` always writes `completed=False`,
`error=False` and no `file_path`; `pdfStatus` mutates only the `status`
field of an existing entry; `jobSuccess` writes `completed=True`,
`error=False` and a `file_path`; `jobFailure` writes `completed=False`,
`error=True` with counters zeroed. -/
def applyWrite (store : ProgressStore) : ProgressWrite → ProgressStore
  | .extractorUpdate sid cur tot st =>
      setStore store sid ⟨cur, tot, st, false, false, none⟩
  | .pdfStatus sid st =>
      match store sid with
      | some snap => setStore store sid { snap with status := st }
      | none => store
  | .jobSuccess sid n path =>
      setStore store sid
        ⟨n, some n, "PDF created successfully! " ++ toString n ++ " pages captured.",
          true, false, some path⟩
  | .jobFailure sid st => setStore store sid ⟨0, some 0, st, false, true, none⟩

/-- Outcomes of the external interactions performed by
`BrowserExtractor.extract_pages`: whether each driver setup attempt
succeeds, whether loading the URL raises, whether the navigation attempt
made while trying to reach a given page is accepted, and the image path
produced by `capture_current_page` for a given page number (`none` =
capture failed). -/
structure ExtractEnv where
  setupHeadless : Bool
  setupGui : Bool
  loadRaises : Bool
  navigate : Nat → Bool
  capture : Nat → Option String

/-- The page ceiling `max_pages = 300` (line 364). -/
def max_pages : Nat := 300

/-- The capture loop of `extract_pages` (lines 377-398): for each
`page_num` from 2 up to `max_pages`, update progress, try
`navigate_to_next_page` (stop on failure, writing the final "Completed!"
progress update), then capture; a failed capture is logged and skipped
while the index still advances. `fuel` counts the remaining loop
iterations. -/
def captureLoop (env : ExtractEnv) (sid : String) :
    Nat → Nat → ProgressStore → List (Nat × String) × ProgressStore
  | 0, _, store => ([], store)
  | fuel + 1, page_num, store =>
    let store := applyWrite store
      (.extractorUpdate sid page_num none ("Capturing page " ++ toString page_num ++ "..."))
    if env.navigate page_num then
      match env.capture page_num with
      | some p =>
        let r := captureLoop env sid fuel (page_num + 1) store
        ((page_num, p) :: r.1, r.2)
      | none => captureLoop env sid fuel (page_num + 1) store
    else
      ([], applyWrite store
        (.extractorUpdate sid (page_num - 1) (some (page_num - 1))
          ("Completed! Captured " ++ toString (page_num - 1) ++ " pages")))

/-- Body of `extract_pages` after a successful driver setup
(lines 312-401): load the URL (the outer `except` turns any exception into
an error status and an empty result), settle, best-effort first-page jump,
capture page 1 (abort with an empty list if that fails), then run the
capture loop for pages 2..`max_pages`. -/
def extractMain (env : ExtractEnv) (sid : String) (store : ProgressStore) :
    List (Nat × String) × ProgressStore :=
  let store := applyWrite store (.extractorUpdate sid 0 none "Loading book page...")
  if env.loadRaises then
    ([], applyWrite store (.extractorUpdate sid 0 none "Error during extraction"))
  else
    let store := applyWrite store (.extractorUpdate sid 0 none "Waiting for book to load...")
    let store := applyWrite store (.extractorUpdate sid 0 none "Locating first page...")
    let store := applyWrite store (.extractorUpdate sid 1 none "Capturing first page...")
    match env.capture 1 with
    | none => ([], applyWrite store (.extractorUpdate sid 0 none "Failed to capture first page"))
    | some p1 =>
      let r := captureLoop env sid (max_pages - 1) 2 store
      ((1, p1) :: r.1, r.2)

/-- `BrowserExtractor.extract_pages` (lines 302-414): try a headless
driver, fall back once to a GUI driver, give up with an empty list if both
fail, otherwise run the main extraction body. Returns the ordered list of
(page index, image path) pairs together with the updated progress
store. -/
def BrowserExtractor.extract_pages (env : ExtractEnv) (sid : String)
    (store : ProgressStore) : List (Nat × String) × ProgressStore :=
  let store := applyWrite store (.extractorUpdate sid 0 none "Initializing browser...")
  if env.setupHeadless then extractMain env sid store
  else
    let store := applyWrite store (.extractorUpdate sid 0 none "Error initializing browser")
    let store := applyWrite store (.extractorUpdate sid 0 none "Initializing browser...")
    if env.setupGui then extractMain env sid store
    else
      let store := applyWrite store (.extractorUpdate sid 0 none "Error initializing browser")
      ([], applyWrite store (.extractorUpdate sid 0 none "Failed to initialize browser"))

/-- Outcomes of the external interactions of `PdfGenerator.create_pdf`:
whether opening and drawing the image of a given (page number, path) entry
succeeds (`Image.open`/`drawImage`, lines 451-468, guarded by the inner
`try`), and whether the final `c.save()` (line 475) succeeds. -/
structure PdfEnv where
  drawOk : Nat → String → Bool
  saveOk : Bool

/-- `letter` page width from `reportlab.lib.pagesizes`: 8.5 in × 72 pt. -/
def letterWidth : ℚ := 612

/-- `letter` page height from `reportlab.lib.pagesizes`: 11 in × 72 pt. -/
def letterHeight : ℚ := 792

/-- Where an image lands on its PDF page: `drawImage(img_path, x, y,
width, height)` coordinates (origin bottom-left, as in reportlab). -/
structure Placement where
  x : ℚ
  y : ℚ
  width : ℚ
  height : ℚ
deriving DecidableEq

/-- The dimension computation of `create_pdf` (lines 453-464): fit the
image to the letter page with a 25-unit margin on each side, scaling by
width first and falling back to scaling by height when the result would be
too tall. Returns (width, height). -/
def fitDims (img_width img_height : ℚ) : ℚ × ℚ :=
  let aspect := img_height / img_width
  let width := letterWidth - 50
  let height := width * aspect
  if height > letterHeight - 50 then
    ((letterHeight - 50) / aspect, letterHeight - 50)
  else
    (width, height)

/-- The `drawImage` call of line 467: the fitted image is placed at
`(25, page_height - height - 25)`. -/
def placeImage (img_width img_height : ℚ) : Placement :=
  let wh := fitDims img_width img_height
  ⟨25, letterHeight - wh.2 - 25, wh.1, wh.2⟩

/-- The per-image loop of `create_pdf` (lines 446-471): each entry gets a
status update; a drawing failure is caught by the inner `except`, logged
and skipped (no `showPage` for it), so the emitted PDF pages are exactly
the entries whose draw succeeded, in input order. -/
def drawPages (env : PdfEnv) (sid : String) :
    List (Nat × String) → ProgressStore → List (Nat × String) × ProgressStore
  | [], store => ([], store)
  | (n, p) :: rest, store =>
    let store := applyWrite store
      (.pdfStatus sid ("Adding page " ++ toString n ++ " to PDF..."))
    if env.drawOk n p then
      let r := drawPages env sid rest store
      ((n, p) :: r.1, r.2)
    else
      drawPages env sid rest store

/-- `PdfGenerator.create_pdf` (lines 431-482): refuse an empty page list,
otherwise draw each page (failures skipped) and save; the outer `except`
turns a failing save into a `false` return. Returns (success flag, emitted
PDF pages in order, updated store). -/
def PdfGenerator.create_pdf (env : PdfEnv) (sid : String)
    (pages : List (Nat × String)) (store : ProgressStore) :
    Bool × List (Nat × String) × ProgressStore :=
  match pages with
  | [] => (false, [], applyWrite store (.pdfStatus sid "Error: No pages to create PDF"))
  | _ :: _ =>
    let store := applyWrite store
      (.pdfStatus sid ("Creating PDF with " ++ toString pages.length ++ " pages..."))
    let r := drawPages env sid pages store
    let store := applyWrite r.2 (.pdfStatus sid "Finalizing PDF...")
    if env.saveOk then (true, r.1, store)
    else (false, r.1, applyWrite store (.pdfStatus sid "Error creating PDF"))

/-- One visible element matching a next/right button selector (method 1 of
`navigate_to_next_page`, lines 170-201): whether the regular `click()`
is accepted, and whether the scripted JavaScript click retry is. -/
structure ButtonOutcome where
  clickOk : Bool
  jsClickOk : Bool

/-- One visible page-number input field (method 3, lines 220-243): the
integer parsed from its value (`none` if `int(...)` raises) and whether
clearing/typing/submitting the incremented number is accepted. -/
structure InputFieldOutcome where
  value : Option Int
  submitOk : Bool

/-- Outcomes of the external interactions of `navigate_to_next_page`: the
visible button elements in selector order, the arrow-key press and its
synthetic-keyboard-event fallback (method 2, lines 203-218), the visible
page input fields, and the acceptance of each of the fixed scripted viewer
API calls (method 4, lines 245-265). -/
structure NavEnv where
  buttons : List ButtonOutcome
  arrowKeyOk : Bool
  jsKeyEventOk : Bool
  inputFields : List InputFieldOutcome
  jsCallOk : Nat → Bool

/-- The `js_methods` list of lines 246-257 has ten entries. -/
def js_methods_count : Nat := 10

/-- Method 1: walk the visible button elements; a regular click, or
failing that a scripted click, accepts; otherwise move to the next
element. -/
def tryButtons : List ButtonOutcome → Bool
  | [] => false
  | b :: rest => if b.clickOk then true else if b.jsClickOk then true else tryButtons rest

/-- Method 2: the arrow-key press, with the synthetic keyboard event as
fallback. -/
def tryArrowKey (env : NavEnv) : Bool :=
  env.arrowKeyOk || env.jsKeyEventOk

/-- Method 3: walk the visible input fields; the first whose value parses
as an integer and whose increment-and-submit is accepted succeeds. -/
def tryInputFields : List InputFieldOutcome → Bool
  | [] => false
  | f :: rest =>
    match f.value with
    | some _ => if f.submitOk then true else tryInputFields rest
    | none => tryInputFields rest

/-- Method 4: execute each scripted viewer API call in turn, succeeding at
the first whose execution does not raise. -/
def tryJsMethods (env : NavEnv) : Bool :=
  (List.range js_methods_count).any env.jsCallOk

/-- `BrowserExtractor.navigate_to_next_page` (lines 165-268): the four
strategies tried in priority order, returning at the first acceptance and
`false` only when all four fail. -/
def BrowserExtractor.navigate_to_next_page (env : NavEnv) : Bool :=
  if tryButtons env.buttons then true
  else if tryArrowKey env then true
  else if tryInputFields env.inputFields then true
  else tryJsMethods env

/-- Instrumented trace of `navigate_to_next_page`: the strategy numbers
(1-4) whose code blocks are entered, in order; control falls through to
strategy k+1 only when strategy k failed. -/
def navAttempts (env : NavEnv) : List Nat :=
  if tryButtons env.buttons then [1]
  else if tryArrowKey env then [1, 2]
  else if tryInputFields env.inputFields then [1, 2, 3]
  else [1, 2, 3, 4]

/-- The success booleans of the four strategies in priority order. -/
def strategies (env : NavEnv) : List Bool :=
  [tryButtons env.buttons, tryArrowKey env, tryInputFields env.inputFields, tryJsMethods env]

/-- The job's working directory: its files and whether the directory
itself still exists. -/
abbrev WorkDir := List String × Bool

/-- Outcomes of the filesystem calls in `PubHTML5Downloader._cleanup`:
whether `os.remove` raises on a given file, and whether `os.rmdir`
raises. -/
structure CleanupEnv where
  removeFails : String → Bool
  rmdirFails : Bool

/-- The file-deletion loop of `_cleanup` (lines 551-554): files are
removed one by one; the first raising `os.remove` aborts the loop (the
exception propagates to `_cleanup`'s handler), leaving the rest in place.
Returns (remaining files, completed without raising). -/
def deleteLoop (removeFails : String → Bool) : List String → List String × Bool
  | [] => ([], true)
  | f :: rest =>
    if removeFails f then (f :: rest, false)
    else deleteLoop removeFails rest

/-- `PubHTML5Downloader._cleanup` (lines 548-558): delete every file in
the working directory then `os.rmdir` it; any exception is caught and only
logged, so the function is total and returns the resulting directory
state. -/
def PubHTML5Downloader.cleanup_dir (env : CleanupEnv) (fs : WorkDir) : WorkDir :=
  match deleteLoop env.removeFails fs.1 with
  | (rem, true) => if env.rmdirFails then (rem, fs.2) else (rem, false)
  | (rem, false) => (rem, fs.2)

/-- Outcomes of all external interactions of one `download` run:
extraction environment, whether the `try` around the extractor raises
(lines 506-518), PDF environment, cleanup environment. -/
structure DownloadEnv where
  extract : ExtractEnv
  extractRaises : Bool
  pdf : PdfEnv
  cleanup : CleanupEnv

/-- Result of `PubHTML5Downloader.download`: its boolean return value, the
final progress store, and the working directory after cleanup. -/
structure DownloadResult where
  success : Bool
  store : ProgressStore
  fs : WorkDir

/-- `PubHTML5Downloader.download` (lines 498-546): run the extractor (an
escaping exception is converted into an error snapshot and an empty page
list), build the PDF when at least one page was captured, write the
success snapshot and clean up on success, write the failure snapshot and
clean up otherwise. -/
def PubHTML5Downloader.download (env : DownloadEnv) (sid output_pdf : String)
    (store : ProgressStore) (fs : WorkDir) : DownloadResult :=
  let er :=
    if env.extractRaises then
      (([] : List (Nat × String)),
        applyWrite store (.jobFailure sid "Error in browser automation"))
    else
      BrowserExtractor.extract_pages env.extract sid store
  match er.1 with
  | _ :: _ =>
    let r := PdfGenerator.create_pdf env.pdf sid er.1 er.2
    if r.1 then
      let store := applyWrite r.2.2 (.jobSuccess sid er.1.length output_pdf)
      ⟨true, store, PubHTML5Downloader.cleanup_dir env.cleanup fs⟩
    else
      let store := applyWrite r.2.2 (.jobFailure sid "Screenshot extraction failed")
      ⟨false, store, PubHTML5Downloader.cleanup_dir env.cleanup fs⟩
  | [] =>
    let store := applyWrite er.2 (.jobFailure sid "Screenshot extraction failed")
    ⟨false, store, PubHTML5Downloader.cleanup_dir env.cleanup fs⟩

/-- The not-found snapshot returned by the `/progress/<session_id>` route
(lines 1158-1164). -/
def notFoundSnapshot : Snapshot :=
  ⟨0, some 0, "Session not found", false, true, none⟩

/-- The `/progress/<session_id>` route handler `get_progress`
(lines 1151-1164): return the stored snapshot when the session id is
known, and the fixed not-found snapshot otherwise. A total function: it
cannot raise. -/
def get_progress (store : ProgressStore) (sid : String) : Snapshot :=
  match store sid with
  | some snap => snap
  | none => notFoundSnapshot

/-- Every pair recorded by the capture loop started at `start` has index
at least `start`, below `start + fuel`, and every page from `start` up to
that index had its navigation attempt accepted. -/
theorem captureLoop_mem (env : ExtractEnv) (sid : String) :
    ∀ (fuel start : Nat) (store : ProgressStore) (x : Nat × String),
      x ∈ (captureLoop env sid fuel start store).1 →
      start ≤ x.1 ∧ x.1 < start + fuel ∧
        ∀ j, start ≤ j → j ≤ x.1 → env.navigate j = true := by
  intro fuel
  induction fuel with
  | zero => intro start store x hx; simp [captureLoop] at hx
  | succ n ih =>
    intro start store x hx
    simp only [captureLoop] at hx
    by_cases hnav : env.navigate start = true
    · rw [if_pos hnav] at hx
      cases hc : env.capture start with
      | some p =>
        rw [hc] at hx
        simp only [List.mem_cons] at hx
        cases hx with
        | inl hx =>
          subst hx
          refine ⟨le_refl _, by omega, ?_⟩
          intro j h1 h2
          have : j = start := le_antisymm h2 h1
          rwa [this]
        | inr hx =>
          obtain ⟨h1, h2, h3⟩ := ih (start + 1) _ x hx
          refine ⟨by omega, by omega, ?_⟩
          intro j hj1 hj2
          rcases Nat.eq_or_lt_of_le hj1 with h | h
          · rwa [← h]
          · exact h3 j h hj2
      | none =>
        rw [hc] at hx
        obtain ⟨h1, h2, h3⟩ := ih (start + 1) _ x hx
        refine ⟨by omega, by omega, ?_⟩
        intro j hj1 hj2
        rcases Nat.eq_or_lt_of_le hj1 with h | h
        · rwa [← h]
        · exact h3 j h hj2
    · rw [if_neg hnav] at hx
      simp at hx

/-- The indices recorded by the capture loop are strictly increasing. -/
theorem captureLoop_pairwise (env : ExtractEnv) (sid : String) :
    ∀ (fuel start : Nat) (store : ProgressStore),
      List.Pairwise (fun a b => a.1 < b.1) (captureLoop env sid fuel start store).1 := by
  intro fuel
  induction fuel with
  | zero => intro start store; simp [captureLoop]
  | succ n ih =>
    intro start store
    simp only [captureLoop]
    by_cases hnav : env.navigate start = true
    · rw [if_pos hnav]
      cases hc : env.capture start with
      | some p =>
        refine List.pairwise_cons.mpr ⟨?_, ih (start + 1) _⟩
        intro y hy
        have := (captureLoop_mem env sid n (start + 1) _ y hy).1
        omega
      | none => exact ih (start + 1) _
    · rw [if_neg hnav]; simp

/-- When every navigation attempt and every capture succeeds, the capture
loop runs for exactly `fuel` iterations and records one page each. -/
theorem captureLoop_length (env : ExtractEnv) (sid : String)
    (hnav : ∀ n, env.navigate n = true)
    (hcap : ∀ n, (env.capture n).isSome = true) :
    ∀ (fuel start : Nat) (store : ProgressStore),
      (captureLoop env sid fuel start store).1.length = fuel := by
  intro fuel
  induction fuel with
  | zero => intro start store; simp [captureLoop]
  | succ n ih =>
    intro start store
    simp only [captureLoop]
    rw [if_pos (hnav start)]
    cases hc : env.capture start with
    | some p => simp [ih]
    | none => exact absurd (hc ▸ hcap start) (by simp)

/-- Shape of the extraction result: either empty, or page 1's capture
succeeded and the list is that first page followed by the capture loop's
output for pages 2..`max_pages`. -/
theorem extract_pages_shape (env : ExtractEnv) (sid : String) (store : ProgressStore) :
    (BrowserExtractor.extract_pages env sid store).1 = [] ∨
    ∃ p1 store', env.capture 1 = some p1 ∧
      (BrowserExtractor.extract_pages env sid store).1 =
        (1, p1) :: (captureLoop env sid (max_pages - 1) 2 store').1 := by
  simp only [BrowserExtractor.extract_pages, extractMain]
  split
  · split
    · left; rfl
    · cases hc : env.capture 1 with
      | none => left; rfl
      | some p1 => right; exact ⟨p1, _, rfl, rfl⟩
  · split
    · split
      · left; rfl
      · cases hc : env.capture 1 with
        | none => left; rfl
        | some p1 => right; exact ⟨p1, _, rfl, rfl⟩
    · left; rfl

/-- Extraction run in which every navigation attempt is accepted but the
captures of pages 2 and 4..300 fail while those of pages 1 and 3
succeed. -/
def c1Env : ExtractEnv :=
  ⟨true, true, false, fun _ => true,
    fun n => if n = 1 then some "page_001.png"
      else if n = 3 then some "page_003.png" else none⟩

set_option maxRecDepth 8192 in
/-- C1 counterexample: the extraction loop records page index 3 without
recording page index 2, so the returned indices are not contiguous — a
failed capture is skipped while the index still advances (lines 390-398),
leaving a gap. -/
theorem c1_counterexample :
    3 ∈ ((BrowserExtractor.extract_pages c1Env "s" emptyStore).1.map Prod.fst) ∧
    2 ∉ ((BrowserExtractor.extract_pages c1Env "s" emptyStore).1.map Prod.fst) := by
  decide

/-- C1 (amended): for every run of the extraction loop, the page indices
in the returned list are strictly increasing, every recorded index is
either 1 or lies in 2..`max_pages` with every navigation attempt from
page 2 up to it accepted (so a navigation failure terminates the sequence
and no index beyond the last successfully advanced-to page is recorded),
and a non-empty result starts at index 1; indices need not be contiguous,
because a mid-loop capture failure skips that index while the loop
continues. -/
theorem c1_amended_indices (env : ExtractEnv) (sid : String) (store : ProgressStore) :
    List.Pairwise (fun a b => a.1 < b.1) (BrowserExtractor.extract_pages env sid store).1 ∧
    (∀ x ∈ (BrowserExtractor.extract_pages env sid store).1,
      x.1 = 1 ∨ (2 ≤ x.1 ∧ x.1 ≤ max_pages ∧
        ∀ j, 2 ≤ j → j ≤ x.1 → env.navigate j = true)) ∧
    ((BrowserExtractor.extract_pages env sid store).1 ≠ [] →
      ((BrowserExtractor.extract_pages env sid store).1.map Prod.fst).head? = some 1) := by
  rcases extract_pages_shape env sid store with h | ⟨p1, store', hc, h⟩
  · rw [h]; simp
  · rw [h]
    refine ⟨?_, ?_, ?_⟩
    · refine List.pairwise_cons.mpr ⟨?_, captureLoop_pairwise env sid _ 2 store'⟩
      intro y hy
      have := (captureLoop_mem env sid _ 2 store' y hy).1
      omega
    · intro x hx
      rcases List.mem_cons.mp hx with hx | hx
      · left; rw [hx]
      · right
        obtain ⟨h1, h2, h3⟩ := captureLoop_mem env sid _ 2 store' x hx
        have hmp : (2 : Nat) + (max_pages - 1) = max_pages + 1 := by simp [max_pages]
        exact ⟨h1, by omega, h3⟩
    · intro _; simp

/-- Extraction run whose first navigation attempt already fails: exactly
page 1 is recorded. -/
def c1WitnessEnv : ExtractEnv :=
  ⟨true, true, false, fun _ => false, fun _ => some "img.png"⟩

/-- C1 (amended) witness: on a concrete run the non-emptiness hypothesis
holds and the recorded indices indeed start at 1. -/
theorem c1_amended_indices_witness :
    ((BrowserExtractor.extract_pages c1WitnessEnv "s" emptyStore).1.map Prod.fst).head? =
      some 1 :=
  (c1_amended_indices c1WitnessEnv "s" emptyStore).2.2 (by decide)

/-- C2: when the capturer returns `none` for page 1, the extraction run
returns an empty page list (lines 366-372), the job's final snapshot for
the session has `error=true` and `completed=false` (lines 538-544), the
job fails, and the assembler is never invoked — the whole run is
independent of the PDF environment. -/
theorem c2_first_page_capture_failure (env : DownloadEnv) (sid out : String)
    (store : ProgressStore) (fs : WorkDir)
    (hraise : env.extractRaises = false)
    (hcap : env.extract.capture 1 = none) :
    (BrowserExtractor.extract_pages env.extract sid store).1 = [] ∧
    (PubHTML5Downloader.download env sid out store fs).success = false ∧
    (PubHTML5Downloader.download env sid out store fs).store sid =
      some ⟨0, some 0, "Screenshot extraction failed", false, true, none⟩ ∧
    ∀ p, PubHTML5Downloader.download { env with pdf := p } sid out store fs =
      PubHTML5Downloader.download env sid out store fs := by
  have hemp : (BrowserExtractor.extract_pages env.extract sid store).1 = [] := by
    rcases extract_pages_shape env.extract sid store with h | ⟨p1, store', hc, h⟩
    · exact h
    · rw [hcap] at hc; exact absurd hc (by simp)
  refine ⟨hemp, ?_, ?_, ?_⟩
  · simp [PubHTML5Downloader.download, hraise, hemp]
  · simp [PubHTML5Downloader.download, hraise, hemp, applyWrite, setStore]
  · intro p
    simp [PubHTML5Downloader.download, hraise, hemp]

/-- Download run in which every capture fails. -/
def c2Env : DownloadEnv :=
  ⟨⟨true, true, false, fun _ => false, fun _ => none⟩, false,
    ⟨fun _ _ => true, true⟩, ⟨fun _ => false, false⟩⟩

/-- C2 witness: on a concrete run whose page-1 capture fails, the job
returns failure. -/
theorem c2_first_page_capture_failure_witness :
    (PubHTML5Downloader.download c2Env "s" "out.pdf" emptyStore ([], true)).success =
      false :=
  (c2_first_page_capture_failure c2Env "s" "out.pdf" emptyStore ([], true) rfl rfl).2.1

/-- C3: when every navigation attempt is accepted and every capture
succeeds, the capture loop stops at exactly the `max_pages = 300` ceiling
(line 364) even though navigation would still succeed, and the job reports
success with page count equal to the ceiling (lines 521-535). -/
theorem c3_ceiling_reached (env : DownloadEnv) (sid out : String)
    (store : ProgressStore) (fs : WorkDir)
    (hhead : env.extract.setupHeadless = true)
    (hload : env.extract.loadRaises = false)
    (hraise : env.extractRaises = false)
    (hnav : ∀ n, env.extract.navigate n = true)
    (hcap : ∀ n, (env.extract.capture n).isSome = true)
    (hsave : env.pdf.saveOk = true) :
    (BrowserExtractor.extract_pages env.extract sid store).1.length = max_pages ∧
    (PubHTML5Downloader.download env sid out store fs).success = true ∧
    ∃ snap, (PubHTML5Downloader.download env sid out store fs).store sid = some snap ∧
      snap.completed = true ∧ snap.error = false ∧
      snap.current_page = max_pages ∧ snap.total_pages = some max_pages := by
  have hsh : ∃ p1 store',
      (BrowserExtractor.extract_pages env.extract sid store).1 =
        (1, p1) :: (captureLoop env.extract sid (max_pages - 1) 2 store').1 := by
    simp only [BrowserExtractor.extract_pages, extractMain, hhead, hload, if_true,
      Bool.false_eq_true, if_false]
    cases hc : env.extract.capture 1 with
    | none => exact absurd (hc ▸ hcap 1) (by simp)
    | some p1 => exact ⟨p1, _, rfl⟩
  obtain ⟨p1, store', hsh⟩ := hsh
  have hlen : (BrowserExtractor.extract_pages env.extract sid store).1.length = max_pages := by
    rw [hsh, List.length_cons, captureLoop_length env.extract sid hnav hcap]
    decide
  refine ⟨hlen, ?_, ?_⟩
  · simp [PubHTML5Downloader.download, PdfGenerator.create_pdf, hraise, hsh, hsave]
  · have hs : (PubHTML5Downloader.download env sid out store fs).store sid =
        some ⟨(BrowserExtractor.extract_pages env.extract sid store).1.length,
          some (BrowserExtractor.extract_pages env.extract sid store).1.length,
          "PDF created successfully! " ++
            toString (BrowserExtractor.extract_pages env.extract sid store).1.length ++
            " pages captured.",
          true, false, some out⟩ := by
      simp [PubHTML5Downloader.download, PdfGenerator.create_pdf, hraise, hsh, hsave,
        applyWrite, setStore]
    exact ⟨_, hs, rfl, rfl, hlen, by rw [hlen]⟩

/-- Download run in which every interaction succeeds. -/
def c3Env : DownloadEnv :=
  ⟨⟨true, true, false, fun _ => true, fun _ => some "img.png"⟩, false,
    ⟨fun _ _ => true, true⟩, ⟨fun _ => false, false⟩⟩

set_option maxRecDepth 8192 in
/-- C3 witness: a concrete run in which navigation and capture never fail
records exactly 300 pages. -/
theorem c3_ceiling_reached_witness :
    (BrowserExtractor.extract_pages c3Env.extract "s" emptyStore).1.length = max_pages :=
  (c3_ceiling_reached c3Env "s" "out.pdf" emptyStore ([], true) rfl rfl rfl
    (fun _ => rfl) (fun _ => rfl) rfl).1

/-- C4: `create_pdf` returns `false` exactly when the input page list is
empty or the final save step raises (lines 433-436 and 473-482); a failure
drawing a single image is caught and skipped (lines 470-471), so the
returned flag does not depend on the draw outcomes at all. -/
theorem c4_create_pdf_false_iff (env : PdfEnv) (sid : String)
    (pages : List (Nat × String)) (store : ProgressStore) :
    ((PdfGenerator.create_pdf env sid pages store).1 = false ↔
      pages = [] ∨ env.saveOk = false) ∧
    ∀ d, (PdfGenerator.create_pdf ⟨d, env.saveOk⟩ sid pages store).1 =
      (PdfGenerator.create_pdf env sid pages store).1 := by
  constructor
  · cases pages with
    | nil => simp [PdfGenerator.create_pdf]
    | cons a l => cases hs : env.saveOk <;> simp [PdfGenerator.create_pdf, hs]
  · intro d
    cases pages with
    | nil => rfl
    | cons a l => cases hs : env.saveOk <;> simp [PdfGenerator.create_pdf, hs]

/-- C5: for every image with positive width and height, `create_pdf`
places it at the 25-unit left and top margins of a letter page, the
placement always fits within the page minus the 50-unit total margins, and
the dimensions are width-fitted (`width = page_width - 50`,
`height = width * aspect`) unless that is too tall, in which case they are
height-fitted (`height = page_height - 50`, `width = height / aspect`)
(lines 453-467). -/
theorem c5_fit_dimensions (iw ih : ℚ) (hw : 0 < iw) (hh : 0 < ih) :
    (placeImage iw ih).x = 25 ∧
    (placeImage iw ih).y = letterHeight - (placeImage iw ih).height - 25 ∧
    (placeImage iw ih).width ≤ letterWidth - 50 ∧
    (placeImage iw ih).height ≤ letterHeight - 50 ∧
    (if (letterWidth - 50) * (ih / iw) > letterHeight - 50 then
      (placeImage iw ih).height = letterHeight - 50 ∧
        (placeImage iw ih).width = (letterHeight - 50) / (ih / iw)
    else
      (placeImage iw ih).width = letterWidth - 50 ∧
        (placeImage iw ih).height = (letterWidth - 50) * (ih / iw)) := by
  have ha : 0 < ih / iw := div_pos hh hw
  have hx : (placeImage iw ih).x = 25 := rfl
  have hy : (placeImage iw ih).y = letterHeight - (placeImage iw ih).height - 25 := rfl
  by_cases hc : (letterWidth - 50) * (ih / iw) > letterHeight - 50
  · have hwd : (placeImage iw ih).width = (letterHeight - 50) / (ih / iw) := by
      simp [placeImage, fitDims, hc]
    have hht : (placeImage iw ih).height = letterHeight - 50 := by
      simp [placeImage, fitDims, hc]
    refine ⟨hx, hy, ?_, ?_, ?_⟩
    · rw [hwd, div_le_iff₀ ha]
      linarith [hc]
    · rw [hht]
    · rw [if_pos hc]; exact ⟨hht, hwd⟩
  · have hwd : (placeImage iw ih).width = letterWidth - 50 := by
      simp [placeImage, fitDims, hc]
    have hht : (placeImage iw ih).height = (letterWidth - 50) * (ih / iw) := by
      simp [placeImage, fitDims, hc]
    refine ⟨hx, hy, ?_, ?_, ?_⟩
    · rw [hwd]
    · rw [hht]; exact le_of_not_lt hc
    · rw [if_neg hc]; exact ⟨hwd, hht⟩

/-- C5 witness: a square image satisfies the positivity hypotheses and its
placement fits within the horizontal bounds. -/
theorem c5_fit_dimensions_witness :
    (0 : ℚ) < 1 ∧ (placeImage 1 1).width ≤ letterWidth - 50 ∧
      (placeImage 1 1).height ≤ letterHeight - 50 :=
  ⟨one_pos, (c5_fit_dimensions 1 1 one_pos one_pos).2.2.1,
    (c5_fit_dimensions 1 1 one_pos one_pos).2.2.2.1⟩

/-- The PDF loop emits exactly the entries whose draw succeeds, in input
order (lines 446-471: a drawing failure is caught, logged and skipped, so
its entry gets no `showPage`). -/
theorem drawPages_filter (env : PdfEnv) (sid : String) :
    ∀ (pages : List (Nat × String)) (store : ProgressStore),
      (drawPages env sid pages store).1 =
        pages.filter fun x => env.drawOk x.1 x.2 := by
  intro pages
  induction pages with
  | nil => intro store; rfl
  | cons a l ih =>
    intro store
    obtain ⟨n, p⟩ := a
    simp only [drawPages]
    cases hd : env.drawOk n p with
    | true => simp [hd, List.filter, ih]
    | false => simp [hd, List.filter, ih]

/-- On a non-empty input whose save succeeds, `create_pdf` returns `true`
and emits exactly the entries whose draw succeeded, in input order. -/
theorem create_pdf_emits (penv : PdfEnv) (sid : String)
    (pages : List (Nat × String)) (store2 : ProgressStore)
    (hne : pages ≠ []) (hsave : penv.saveOk = true) :
    (PdfGenerator.create_pdf penv sid pages store2).1 = true ∧
    (PdfGenerator.create_pdf penv sid pages store2).2.1 =
      pages.filter fun x => penv.drawOk x.1 x.2 := by
  obtain ⟨a, l, rfl⟩ := List.exists_cons_of_ne_nil hne
  refine ⟨by simp [PdfGenerator.create_pdf, hsave], ?_⟩
  have hd := drawPages_filter penv sid (a :: l)
    (applyWrite store2 (.pdfStatus sid ("Creating PDF with " ++
      toString (a :: l).length ++ " pages...")))
  simpa [PdfGenerator.create_pdf, hsave] using hd

/-- The page indices recorded by a full extraction run are strictly
increasing. -/
theorem extract_pages_pairwise (env : ExtractEnv) (sid : String) (store : ProgressStore) :
    List.Pairwise (fun a b => a.1 < b.1) (BrowserExtractor.extract_pages env sid store).1 := by
  rcases extract_pages_shape env sid store with h | ⟨p1, store', hc, h⟩
  · rw [h]; simp
  · rw [h]
    refine List.pairwise_cons.mpr ⟨?_, captureLoop_pairwise env sid _ 2 store'⟩
    intro y hy
    have := (captureLoop_mem env sid _ 2 store' y hy).1
    omega

/-- Extraction run capturing exactly pages 1 and 2: navigation is
accepted only when trying to reach page 2, and every capture succeeds. -/
def c6CexExtractEnv : ExtractEnv :=
  ⟨true, true, false, fun n => n == 2, fun _ => some "img.png"⟩

/-- PDF run whose save succeeds but whose draw fails exactly on the image
of page 2. -/
def c6CexPdfEnv : PdfEnv := ⟨fun n _ => n != 2, true⟩

/-- C6 counterexample: a job that captures two pages and whose draw of the
second image raises is still successful (`download` returns `true`,
because lines 470-471 only log and skip the failing image and `c.save()`
still runs), yet the produced PDF has one page while the captured image
list has two entries — the PDF page count does not equal the number of
entries in the captured image list. -/
theorem c6_counterexample :
    (PubHTML5Downloader.download ⟨c6CexExtractEnv, false, c6CexPdfEnv, ⟨fun _ => false, false⟩⟩
        "s" "out.pdf" emptyStore ([], true)).success = true ∧
    (PdfGenerator.create_pdf c6CexPdfEnv "s"
        (BrowserExtractor.extract_pages c6CexExtractEnv "s" emptyStore).1 emptyStore).2.1.length ≠
      (BrowserExtractor.extract_pages c6CexExtractEnv "s" emptyStore).1.length := by
  decide

/-- C6 (amended): on a successful job (non-empty capture list and a
succeeding save), the produced PDF contains exactly one page per captured
entry whose draw succeeds, in capture order, with page indices
monotonically increasing; the PDF page count equals the captured count
whenever every captured image draws successfully — but a draw failure is
skipped (lines 470-471) while the job still succeeds, so the count can be
smaller. -/
theorem c6_pdf_page_count_order (eenv : ExtractEnv) (penv : PdfEnv) (sid : String)
    (store store2 : ProgressStore)
    (hsave : penv.saveOk = true)
    (hne : (BrowserExtractor.extract_pages eenv sid store).1 ≠ []) :
    (PdfGenerator.create_pdf penv sid
        (BrowserExtractor.extract_pages eenv sid store).1 store2).1 = true ∧
    (PdfGenerator.create_pdf penv sid
        (BrowserExtractor.extract_pages eenv sid store).1 store2).2.1 =
      (BrowserExtractor.extract_pages eenv sid store).1.filter
        (fun x => penv.drawOk x.1 x.2) ∧
    List.Pairwise (· < ·)
      ((PdfGenerator.create_pdf penv sid
        (BrowserExtractor.extract_pages eenv sid store).1 store2).2.1.map Prod.fst) ∧
    ((∀ x ∈ (BrowserExtractor.extract_pages eenv sid store).1, penv.drawOk x.1 x.2 = true) →
      (PdfGenerator.create_pdf penv sid
          (BrowserExtractor.extract_pages eenv sid store).1 store2).2.1.length =
        (BrowserExtractor.extract_pages eenv sid store).1.length) := by
  obtain ⟨h1, h2⟩ := create_pdf_emits penv sid _ store2 hne hsave
  refine ⟨h1, h2, ?_, ?_⟩
  · rw [h2]
    refine List.pairwise_map.mpr ?_
    exact List.Pairwise.sublist (List.filter_sublist _) (extract_pages_pairwise eenv sid store)
  · intro hall
    rw [h2, List.filter_eq_self.mpr hall]

/-- C6 (amended) witness: a concrete successful one-page job whose single
image draws emits exactly as many PDF pages as it captured. -/
theorem c6_pdf_page_count_order_witness :
    (PdfGenerator.create_pdf ⟨fun _ _ => true, true⟩ "s"
        (BrowserExtractor.extract_pages c1WitnessEnv "s" emptyStore).1 emptyStore).2.1.length =
      (BrowserExtractor.extract_pages c1WitnessEnv "s" emptyStore).1.length :=
  (c6_pdf_page_count_order c1WitnessEnv ⟨fun _ _ => true, true⟩ "s" emptyStore emptyStore
    rfl (by decide)).2.2.2 fun _ _ => rfl

/-- C7: `navigate_to_next_page` tries its four strategies in fixed
priority order — button click (with scripted-click retry), arrow key (with
synthetic-event fallback), page-input increment, scripted viewer API
calls — returns `true` exactly when some strategy's interaction is
accepted, enters exactly the strategies up to and including the first
accepted one (never a later one), and returns `false` only when all four
fail (lines 165-268). -/
theorem c7_navigation_priority (env : NavEnv) :
    BrowserExtractor.navigate_to_next_page env = (strategies env).any id ∧
    (match (strategies env).findIdx? id with
     | some i => navAttempts env = (List.range (i + 1)).map (· + 1)
     | none => navAttempts env = [1, 2, 3, 4]) := by
  cases h1 : tryButtons env.buttons <;> cases h2 : tryArrowKey env <;>
    cases h3 : tryInputFields env.inputFields <;> cases h4 : tryJsMethods env <;>
    simp [BrowserExtractor.navigate_to_next_page, navAttempts, strategies,
      h1, h2, h3, h4, List.findIdx?] <;> decide

/-- C8: `get_progress` returns the fixed not-found snapshot — with
`error=true`, `completed=false` and status `"Session not found"` — for
every session id absent from the store, and the stored snapshot for every
present id; being a total function, it never raises. -/
theorem c8_progress_unknown_session (store : ProgressStore) (sid : String) :
    (store sid = none → get_progress store sid = notFoundSnapshot) ∧
    notFoundSnapshot.error = true ∧
    notFoundSnapshot.completed = false ∧
    notFoundSnapshot.status = "Session not found" ∧
    ∀ snap, store sid = some snap → get_progress store sid = snap := by
  refine ⟨?_, rfl, rfl, rfl, ?_⟩
  · intro h; simp [get_progress, h]
  · intro snap h; simp [get_progress, h]

/-- A stored snapshot used by the C8 witness. -/
def c8Snap : Snapshot := ⟨5, some 10, "Capturing page 5...", false, false, none⟩

/-- C8 witness: a concrete unknown id yields the not-found snapshot; a
concrete known id yields its stored snapshot. -/
theorem c8_progress_unknown_session_witness :
    get_progress emptyStore "unknown" = notFoundSnapshot ∧
    get_progress (setStore emptyStore "abc" c8Snap) "abc" = c8Snap :=
  ⟨(c8_progress_unknown_session emptyStore "unknown").1 rfl,
    (c8_progress_unknown_session (setStore emptyStore "abc" c8Snap) "abc").2.2.2.2 c8Snap
      (by simp [setStore])⟩

/-- Each `download` run applies `_cleanup` to the working directory and
is otherwise independent of the cleanup environment. -/
theorem download_cleanup_key (env : DownloadEnv) (sid out : String)
    (store : ProgressStore) (fs : WorkDir) (c : CleanupEnv) :
    PubHTML5Downloader.download { env with cleanup := c } sid out store fs =
      ⟨(PubHTML5Downloader.download env sid out store fs).success,
        (PubHTML5Downloader.download env sid out store fs).store,
        PubHTML5Downloader.cleanup_dir c fs⟩ := by
  cases hr : env.extractRaises with
  | true => simp [PubHTML5Downloader.download, hr]
  | false =>
    cases hres : (BrowserExtractor.extract_pages env.extract sid store).1 with
    | nil => simp [PubHTML5Downloader.download, hr, hres]
    | cons a l =>
      cases hpdf : (PdfGenerator.create_pdf env.pdf sid (a :: l)
          (BrowserExtractor.extract_pages env.extract sid store).2).1 <;>
        simp [PubHTML5Downloader.download, hr, hres, hpdf]

/-- C9: working-directory cleanup is applied on every path of a `download`
run — success or failure — and since `_cleanup` catches its own exceptions
(lines 548-558), no cleanup outcome changes the job's result or its final
progress snapshot. -/
theorem c9_cleanup_both_paths (env : DownloadEnv) (sid out : String)
    (store : ProgressStore) (fs : WorkDir) :
    (PubHTML5Downloader.download env sid out store fs).fs =
      PubHTML5Downloader.cleanup_dir env.cleanup fs ∧
    ∀ c, (PubHTML5Downloader.download { env with cleanup := c } sid out store fs).success =
        (PubHTML5Downloader.download env sid out store fs).success ∧
      (PubHTML5Downloader.download { env with cleanup := c } sid out store fs).store =
        (PubHTML5Downloader.download env sid out store fs).store := by
  constructor
  · have h := download_cleanup_key env sid out store fs env.cleanup
    calc (PubHTML5Downloader.download env sid out store fs).fs
        = (PubHTML5Downloader.download { env with cleanup := env.cleanup }
            sid out store fs).fs := rfl
      _ = PubHTML5Downloader.cleanup_dir env.cleanup fs := by rw [h]
  · intro c
    rw [download_cleanup_key env sid out store fs c]
    exact ⟨rfl, rfl⟩

/-- Invariant of stored snapshots: a completed one is error-free and
carries a result file path. -/
def snapshotOk (snap : Snapshot) : Prop :=
  snap.completed = true → snap.error = false ∧ snap.file_path.isSome = true

/-- Invariant of a whole progress store. -/
def storeOk (store : ProgressStore) : Prop :=
  ∀ s snap, store s = some snap → snapshotOk snap

/-- Each of the program's progress writes preserves the store
invariant. -/
theorem applyWrite_storeOk (store : ProgressStore) (w : ProgressWrite)
    (h : storeOk store) : storeOk (applyWrite store w) := by
  intro s snap hs
  cases w with
  | extractorUpdate sid cur tot st =>
    simp only [applyWrite, setStore] at hs
    by_cases he : s = sid
    · rw [if_pos he] at hs
      rw [← Option.some.inj hs]
      intro hc
      exact absurd hc (by simp)
    · rw [if_neg he] at hs
      exact h s snap hs
  | pdfStatus sid st =>
    simp only [applyWrite] at hs
    cases hold : store sid with
    | none => rw [hold] at hs; exact h s snap hs
    | some old =>
      rw [hold] at hs
      simp only [setStore] at hs
      by_cases he : s = sid
      · rw [if_pos he] at hs
        rw [← Option.some.inj hs]
        intro hc
        exact h sid old hold hc
      · rw [if_neg he] at hs
        exact h s snap hs
  | jobSuccess sid n path =>
    simp only [applyWrite, setStore] at hs
    by_cases he : s = sid
    · rw [if_pos he] at hs
      rw [← Option.some.inj hs]
      exact fun _ => ⟨rfl, rfl⟩
    · rw [if_neg he] at hs
      exact h s snap hs
  | jobFailure sid st =>
    simp only [applyWrite, setStore] at hs
    by_cases he : s = sid
    · rw [if_pos he] at hs
      rw [← Option.some.inj hs]
      intro hc
      exact absurd hc (by simp)
    · rw [if_neg he] at hs
      exact h s snap hs

/-- The store invariant is preserved by any sequence of the program's
writes. -/
theorem foldl_storeOk : ∀ (ws : List ProgressWrite) (store : ProgressStore),
    storeOk store → storeOk (ws.foldl applyWrite store) := by
  intro ws
  induction ws with
  | nil => intro store h; exact h
  | cons w rest ih => intro store h; exact ih _ (applyWrite_storeOk store w h)

/-- C10: every snapshot written by the extractor's `update_progress` has
`completed=false` and `error=false` regardless of its status text
(lines 67-76), and since a `completed=true` snapshot is written only by
the job's final success branch (lines 526-533), every snapshot reachable
by any sequence of the program's progress writes satisfies: `completed=true`
implies `error=false` and a result file path is present. -/
theorem c10_completed_implies_success (ws : List ProgressWrite)
    (store : ProgressStore) (sid : String) (cur : Nat) (tot : Option Nat) (st : String) :
    (applyWrite store (.extractorUpdate sid cur tot st)) sid =
      some ⟨cur, tot, st, false, false, none⟩ ∧
    ∀ s snap, (ws.foldl applyWrite emptyStore) s = some snap →
      snap.completed = true → snap.error = false ∧ snap.file_path.isSome = true := by
  constructor
  · simp [applyWrite, setStore]
  · exact foldl_storeOk ws emptyStore (by intro s snap h; simp [emptyStore] at h)

/-- C10 witness: after a concrete success write, the stored snapshot is
completed, error-free and carries its file path; and a concrete extractor
update stores an uncompleted, error-free snapshot. -/
theorem c10_completed_implies_success_witness :
    (applyWrite emptyStore (.extractorUpdate "s" 1 none "Capturing first page...")) "s" =
      some ⟨1, none, "Capturing first page...", false, false, none⟩ ∧
    (⟨3, some 3, "PDF created successfully! " ++ toString 3 ++ " pages captured.",
      true, false, some "o.pdf"⟩ : Snapshot).error = false ∧
    (⟨3, some 3, "PDF created successfully! " ++ toString 3 ++ " pages captured.",
      true, false, some "o.pdf"⟩ : Snapshot).file_path.isSome = true := by
  have h := c10_completed_implies_success [.jobSuccess "s" 3 "o.pdf"] emptyStore "s" 1 none
    "Capturing first page..."
  have h2 := h.2 "s" ⟨3, some 3, "PDF created successfully! " ++ toString 3 ++
    " pages captured.", true, false, some "o.pdf"⟩ (by simp [applyWrite, setStore]) rfl
  exact ⟨h.1, h2.1, h2.2⟩

end PubFile
